import Mathlib

/-!
Shallow embedding of `src/lib.rs` of the Cube-OS `example-api` crate.

The crate defines an in-memory device API: a state struct `ExampleStruct`
holding a `u16`, a `String` and a `bool`; a selector enum `ExampleEnum`;
input/output records `ExampleInput` / `ExampleOutput`; the methods
`new`, `get`, `get_all`, `set`; an error enum `ExampleError` with the
single variant `Err`; and a `From<ExampleError> for cubeos_error::Error`
conversion producing `Error::ServiceError(0)`.

Rust `u16` values are embedded as `Nat` (no arithmetic is performed on
them anywhere in the source, so no wrap-around modelling is needed).
Rust `Result<T, ExampleError>` is embedded as `Except ExampleError T`.
A `&mut self` method is embedded as a function returning the result
together with the successor state; a `&self` method returns only the
result (the state is unchanged by the borrow discipline of the source).
-/

/-- The domain error enum of `src/lib.rs` (lines 18-23): a single
variant `Err` ("Example error"). -/
inductive ExampleError where
  | Err
deriving DecidableEq, Repr

/-- The relevant fragment of the external `cubeos_error::Error` type, as
documented in the source comments (lines 27-34): domain errors of an API
are converted to the `ServiceError(u8)` variant; the other variants
(`Failure(String)`, `Io(u8)`, `Infallible`, `Bincode(u8)`,
`PoisonError`) are produced only by the external crate's own
conversions, never by this API's `From` impl, so only `ServiceError`
is needed to state properties of this repository's conversion. -/
inductive Error where
  | ServiceError (code : Nat)
deriving DecidableEq, Repr

/-- `impl From<ExampleError> for Error` (lines 35-41):
`ExampleError::Err => cubeos_error::Error::ServiceError(0)`. -/
def exampleErrorToError : ExampleError → Error
  | ExampleError.Err => Error.ServiceError 0

/-- `pub type ExampleResult<T> = Result<T, ExampleError>` (line 44). -/
abbrev ExampleResult (T : Type) := Except ExampleError T

/-- The selector enum `ExampleEnum` (lines 49-55). -/
inductive ExampleEnum where
  | Number
  | String
  | Boolean
  | All
deriving DecidableEq, Repr

/-- The input record `ExampleInput` (lines 60-65). -/
structure ExampleInput where
  in_no : Nat
  in_str : String
  in_bool : Bool
deriving DecidableEq, Repr

/-- The output record `ExampleOutput` (lines 66-71): each field is
optional, `none` meaning "not requested". -/
structure ExampleOutput where
  out_no : Option Nat
  out_str : Option String
  out_bool : Option Bool
deriving DecidableEq, Repr

/-- The device-state struct `ExampleStruct` (lines 74-83). -/
structure ExampleStruct where
  ex_no : Nat
  ex_str : String
  ex_bool : Bool
deriving DecidableEq, Repr

/-- `ExampleStruct::new` (lines 86-92): zero-valued defaults. -/
def ExampleStruct.new : ExampleStruct :=
  { ex_no := 0, ex_str := "", ex_bool := false }

/-- `ExampleStruct::get_all` (lines 117-123): all three fields present. -/
def ExampleStruct.get_all (s : ExampleStruct) : ExampleResult ExampleOutput :=
  Except.ok { out_no := some s.ex_no
              out_str := some s.ex_str
              out_bool := some s.ex_bool }

/-- `ExampleStruct::get` (lines 96-115): selector dispatch; the `All`
arm calls `get_all`. -/
def ExampleStruct.get (s : ExampleStruct) (g : ExampleEnum) :
    ExampleResult ExampleOutput :=
  match g with
  | ExampleEnum.Number =>
      Except.ok { out_no := some s.ex_no, out_str := none, out_bool := none }
  | ExampleEnum.String =>
      Except.ok { out_no := none, out_str := some s.ex_str, out_bool := none }
  | ExampleEnum.Boolean =>
      Except.ok { out_no := none, out_str := none, out_bool := some s.ex_bool }
  | ExampleEnum.All => s.get_all

/-- `ExampleStruct::set` (lines 125-131): `&mut self` method embedded as
a state transformer; it overwrites all three fields from the input and
returns `Ok(())`. The first component is the returned `ExampleResult`,
the second the successor state. -/
def ExampleStruct.set (s : ExampleStruct) (i : ExampleInput) :
    ExampleResult Unit × ExampleStruct :=
  (Except.ok (), { ex_no := i.in_no, ex_str := i.in_str, ex_bool := i.in_bool })

/-- C1: for every device state and every selector, `get` returns `Ok`
with exactly the fields implied by the selector present: `Number` gives
only `out_no` as `some`, `String` only `out_str`, `Boolean` only
`out_bool`, and `All` gives all three as `some`; every non-requested
field is `none`. -/
theorem get_exact_fields (s : ExampleStruct) :
    s.get ExampleEnum.Number =
      Except.ok { out_no := some s.ex_no, out_str := none, out_bool := none } ∧
    s.get ExampleEnum.String =
      Except.ok { out_no := none, out_str := some s.ex_str, out_bool := none } ∧
    s.get ExampleEnum.Boolean =
      Except.ok { out_no := none, out_str := none, out_bool := some s.ex_bool } ∧
    s.get ExampleEnum.All =
      Except.ok { out_no := some s.ex_no, out_str := some s.ex_str,
                  out_bool := some s.ex_bool } :=
  ⟨rfl, rfl, rfl, rfl⟩

/-- C2: round-trip — for every input `i` and every starting state,
`set i` followed by `get All` yields an `Ok` output whose present
fields are exactly `i`'s fields. -/
theorem set_get_all_roundtrip (s : ExampleStruct) (i : ExampleInput) :
    (s.set i).2.get ExampleEnum.All =
      Except.ok { out_no := some i.in_no, out_str := some i.in_str,
                  out_bool := some i.in_bool } :=
  rfl

/-- C3: idempotence — for every input `i` and every starting state,
calling `set i` twice yields exactly the same device state (and the
same returned result) as calling it once. -/
theorem set_idempotent (s : ExampleStruct) (i : ExampleInput) :
    ((s.set i).2.set i).2 = (s.set i).2 ∧ ((s.set i).2.set i).1 = (s.set i).1 :=
  ⟨rfl, rfl⟩

/-- C4: initialization defaults — `new` yields the zero-valued state,
and `get All` on it returns
`{number := some 0, text := some "", flag := some false}`. -/
theorem new_get_all_defaults :
    ExampleStruct.new =
      { ex_no := 0, ex_str := "", ex_bool := false } ∧
    ExampleStruct.new.get ExampleEnum.All =
      Except.ok { out_no := some 0, out_str := some "", out_bool := some false } :=
  ⟨rfl, rfl⟩

/-- C5 counterexample: the claim says the generic domain error kind
`Err` converts to service error code `1`; the code maps it to
`ServiceError(0)`, not `ServiceError(1)`. -/
theorem err_converts_to_zero_not_one :
    exampleErrorToError ExampleError.Err = Error.ServiceError 0 ∧
    exampleErrorToError ExampleError.Err ≠ Error.ServiceError 1 := by
  refine ⟨rfl, ?_⟩
  decide

/-- C5 amended: the conversion from the domain error type to the
service error code space is a total function mapping each error kind to
exactly one code; the sole kind `Err` converts to service error
code `0`. -/
theorem error_conversion_table (e : ExampleError) :
    ∃! c : Error, exampleErrorToError e = c ∧
      exampleErrorToError ExampleError.Err = Error.ServiceError 0 := by
  cases e
  exact ⟨Error.ServiceError 0, ⟨rfl, rfl⟩, fun c hc => hc.1.symm⟩

/-- C6: `get` is a pure projection that never fails — for every state
and every selector it returns `Ok`, and (being embedded as a `&self`
method) it leaves the state untouched: its value is determined by the
state alone, with no successor state to differ. -/
theorem get_never_fails (s : ExampleStruct) (g : ExampleEnum) :
    ∃ o : ExampleOutput, s.get g = Except.ok o := by
  cases g
  case Number => exact ⟨_, rfl⟩
  case String => exact ⟨_, rfl⟩
  case Boolean => exact ⟨_, rfl⟩
  case All => exact ⟨_, rfl⟩

/-- C7: in the in-memory variant `set` always succeeds — it returns
`Ok(())` for every input and every starting state — and the write is
atomic: the successor state has all three fields taken from the input
(all three update together, never a partial update). -/
theorem set_always_succeeds_atomic (s : ExampleStruct) (i : ExampleInput) :
    (s.set i).1 = Except.ok () ∧
    (s.set i).2 =
      { ex_no := i.in_no, ex_str := i.in_str, ex_bool := i.in_bool } :=
  ⟨rfl, rfl⟩

/-- C8: the `All` case of `get` agrees with the single-field
projections — the `All` arm literally calls the shared `get_all`
routine, and each field of its output equals the corresponding field
returned by the matching single selector. -/
theorem get_all_agrees_with_singles (s : ExampleStruct) :
    s.get ExampleEnum.All = s.get_all ∧
    ∃ oA oN oS oB : ExampleOutput,
      s.get ExampleEnum.All = Except.ok oA ∧
      s.get ExampleEnum.Number = Except.ok oN ∧
      s.get ExampleEnum.String = Except.ok oS ∧
      s.get ExampleEnum.Boolean = Except.ok oB ∧
      oA.out_no = oN.out_no ∧ oA.out_str = oS.out_str ∧
      oA.out_bool = oB.out_bool :=
  ⟨rfl, _, _, _, _, rfl, rfl, rfl, rfl, rfl, rfl, rfl⟩

/-- C9 counterexample: the claim says an out-of-domain input such as
`in_no = 5` is rejected with the `SetErr` kind (service code `2`) and
leaves the state unchanged; in the code, `set` on a fresh device with
`in_no = 5` returns `Ok(())` and changes the state, and no error kind
converts to service code `2`. -/
theorem set_accepts_five :
    (ExampleStruct.new.set
        { in_no := 5, in_str := "x", in_bool := true }).1 = Except.ok () ∧
    (ExampleStruct.new.set
        { in_no := 5, in_str := "x", in_bool := true }).2 ≠ ExampleStruct.new ∧
    (∀ e : ExampleError, exampleErrorToError e ≠ Error.ServiceError 2) := by
  refine ⟨rfl, ?_, ?_⟩
  · decide
  · intro e
    cases e
    decide

/-- C9 amended: `set` never rejects any input — for every input
(including one with `in_no = 5`) and every starting state it returns
`Ok(())` and overwrites the state with the input's fields; the error
taxonomy has no `SetErr` kind (its sole kind is `Err`), so no error of
this API converts to service code `2`. -/
theorem set_never_rejects (s : ExampleStruct) (i : ExampleInput) :
    (s.set i).1 = Except.ok () ∧
    (s.set i).2 =
      { ex_no := i.in_no, ex_str := i.in_str, ex_bool := i.in_bool } ∧
    (∀ e : ExampleError, e = ExampleError.Err ∧
      exampleErrorToError e ≠ Error.ServiceError 2) := by
  refine ⟨rfl, rfl, ?_⟩
  intro e
  cases e
  exact ⟨rfl, by decide⟩

/-- C10: noninterference — each single-field selector of `get` reads
only its own state field: two states agreeing on `ex_no` give identical
`get Number` outputs, two agreeing on `ex_str` identical `get String`
outputs, and two agreeing on `ex_bool` identical `get Boolean`
outputs. -/
theorem get_noninterference (s t : ExampleStruct) :
    (s.ex_no = t.ex_no →
      s.get ExampleEnum.Number = t.get ExampleEnum.Number) ∧
    (s.ex_str = t.ex_str →
      s.get ExampleEnum.String = t.get ExampleEnum.String) ∧
    (s.ex_bool = t.ex_bool →
      s.get ExampleEnum.Boolean = t.get ExampleEnum.Boolean) := by
  refine ⟨fun h => ?_, fun h => ?_, fun h => ?_⟩
  · simp [ExampleStruct.get, h]
  · simp [ExampleStruct.get, h]
  · simp [ExampleStruct.get, h]

/-- C10 witness: two concrete states agreeing only on the inspected
field give identical single-selector outputs. -/
theorem get_noninterference_witness :
    ExampleStruct.get { ex_no := 5, ex_str := "a", ex_bool := true }
        ExampleEnum.Number =
      ExampleStruct.get { ex_no := 5, ex_str := "b", ex_bool := false }
        ExampleEnum.Number ∧
    ExampleStruct.get { ex_no := 1, ex_str := "hi", ex_bool := true }
        ExampleEnum.String =
      ExampleStruct.get { ex_no := 2, ex_str := "hi", ex_bool := false }
        ExampleEnum.String ∧
    ExampleStruct.get { ex_no := 3, ex_str := "a", ex_bool := true }
        ExampleEnum.Boolean =
      ExampleStruct.get { ex_no := 4, ex_str := "b", ex_bool := true }
        ExampleEnum.Boolean :=
  ⟨(get_noninterference
      { ex_no := 5, ex_str := "a", ex_bool := true }
      { ex_no := 5, ex_str := "b", ex_bool := false }).1 rfl,
   (get_noninterference
      { ex_no := 1, ex_str := "hi", ex_bool := true }
      { ex_no := 2, ex_str := "hi", ex_bool := false }).2.1 rfl,
   (get_noninterference
      { ex_no := 3, ex_str := "a", ex_bool := true }
      { ex_no := 4, ex_str := "b", ex_bool := true }).2.2 rfl⟩
